import Mathlib

/-!
Bare-metal environment layer of rpmsg-lite (`env_bm.c`)

A shallow embedding of `lib/rpmsg_lite/porting/environment/env_bm.c`:
the reference-counted lifecycle (`env_init` / `env_deinit`), the ISR table
(`env_register_isr` / `env_isr`) and the interrupt-mask mutex
(`env_lock_mutex` / `env_unlock_mutex`).

Conventions of the embedding.

* The two file-scope statics `env_init_counter` and `isr_table` are the fields of
  `EnvState`; every C function becomes a function on `EnvState`.
* A C `int` that is computed with (`env_init_counter`) is a `CInt`: an integer in
  `[-2^31, 2^31 - 1]`; `++` and `--` reduce modulo `2^32` (two's complement).  Overflow of
  a signed `int` is undefined in C; the results below state the range in which it does
  not occur and do not depend on what happens outside it.
* A C `int` that is only compared or used as an index (`vq_id`, `vector`) and the status
  codes are plain integers.
* `isr_table[i]` is plain C array indexing, which is not bounds checked.  The table is
  therefore embedded in a memory of `struct isr_info` cells addressed relative to
  `&isr_table[0]`: cells `0 .. ISR_COUNT - 1` are the table, every other index is memory
  outside the table.
* Calls into code that lives outside this file (`platform_*`, `virtqueue_notification`)
  are recorded, in order, in `EnvState.trace`.
* `assert` aborts the program in a debug build and vanishes when `NDEBUG` is defined.
  Functions that contain an `assert` take the flag `ndebug` and return `none` for an abort.
-/

namespace EnvBm

/-- A `void *`: an address, with `NULL` the address `0`. -/
abbrev Ptr := Nat

/-- The null pointer. -/
def NULL : Ptr := 0

/-- `#define ISR_COUNT (2)`. -/
def ISR_COUNT : Int := 2

/-- Largest value of a 32-bit C `int`. -/
def INT_MAX : Int := 2147483647

/-- A 32-bit C `int`. -/
@[ext]
structure CInt where
  val : Int
  lo : -2147483648 ≤ val
  hi : val ≤ 2147483647

/-- Reduction of an integer to a C `int` modulo `2^32` (two's complement). -/
def CInt.wrap (x : Int) : CInt :=
  ⟨(x + 2147483648) % 4294967296 - 2147483648, by omega, by omega⟩

/-- The `int` constant `0`. -/
def CInt.zero : CInt := ⟨0, by decide, by decide⟩

/-- Calls that leave this translation unit, as they appear in the trace. -/
inductive Event where
  | platform_init
  | platform_deinit
  | platform_interrupt_disable_all
  | platform_interrupt_enable_all
  | virtqueue_notification (vq : Ptr)
deriving DecidableEq, Repr

/-- The state the functions of `env_bm.c` act on.

* `env_init_counter` is `static int env_init_counter`.
* `isr_table i` is the `data` member of the `struct isr_info` cell at `isr_table + i`;
  the array `static struct isr_info isr_table[ISR_COUNT]` is the cells `0 ≤ i < ISR_COUNT`.
* `trace` lists the outgoing calls made so far, oldest first.
* `interrupts_enabled` is the global interrupt mask owned by the platform layer. -/
structure EnvState where
  env_init_counter : CInt
  isr_table : Int → Ptr
  trace : List Event
  interrupts_enabled : Bool

/-- The state of a freshly loaded image: statics zero-initialised, nothing called yet. -/
def zeroState : EnvState :=
  { env_init_counter := CInt.zero
    isr_table := fun _ => NULL
    trace := []
    interrupts_enabled := true }

/-- The call `platform_init()`: the platform is outside this file, so the call is recorded
and its result code `rc` is whatever the platform answers. -/
def platform_init (rc : Int) (s : EnvState) : Int × EnvState :=
  (rc, { s with trace := s.trace ++ [Event.platform_init] })

/-- The call `platform_deinit()`, recorded like `platform_init`. -/
def platform_deinit (rc : Int) (s : EnvState) : Int × EnvState :=
  (rc, { s with trace := s.trace ++ [Event.platform_deinit] })

/-- The call `virtqueue_notification((struct virtqueue *)p)`, recorded in the trace. -/
def virtqueue_notification (vq : Ptr) (s : EnvState) : EnvState :=
  { s with trace := s.trace ++ [Event.virtqueue_notification vq] }

/-- Modelled from the spec: `platform_interrupt_disable_all` is declared in `platform.h`
and defined in the platform layer, neither of which is part of the sources.  The spec says
it is the "global mask toggle used by the synchronization primitive" and that acquiring
"globally disables maskable interrupts". -/
def platform_interrupt_disable_all (s : EnvState) : EnvState :=
  { s with
    interrupts_enabled := false
    trace := s.trace ++ [Event.platform_interrupt_disable_all] }

/-- Modelled from the spec: `platform_interrupt_enable_all` is declared in `platform.h`
and defined in the platform layer, neither of which is part of the sources.  The spec says
that releasing "globally re-enables maskable interrupts". -/
def platform_interrupt_enable_all (s : EnvState) : EnvState :=
  { s with
    interrupts_enabled := true
    trace := s.trace ++ [Event.platform_interrupt_enable_all] }

/-- The effect of `memset(isr_table, 0, sizeof(isr_table))` on the cells. -/
def memset_isr_table (m : Int → Ptr) : Int → Ptr :=
  fun i => if 0 ≤ i ∧ i < ISR_COUNT then NULL else m i

/-- The function `env_init`.
```
assert(env_init_counter >= 0);
if (env_init_counter < 0) return -1;
env_init_counter++;
if (1 < env_init_counter) return 0;
memset(isr_table, 0, sizeof(isr_table));
return platform_init();
``` -/
def env_init (ndebug : Bool) (platform_init_rc : Int) (s : EnvState) :
    Option (Int × EnvState) :=
  if ndebug = false ∧ ¬ (0 ≤ s.env_init_counter.val) then none
  else if s.env_init_counter.val < 0 then some (-1, s)
  else
    let s1 := { s with env_init_counter := CInt.wrap (s.env_init_counter.val + 1) }
    if 1 < s1.env_init_counter.val then some (0, s1)
    else
      some (platform_init platform_init_rc
        { s1 with isr_table := memset_isr_table s1.isr_table })

/-- The function `env_deinit`.
```
assert(env_init_counter > 0);
if (env_init_counter <= 0) return -1;
env_init_counter--;
if (0 < env_init_counter) return 0;
return platform_deinit();
``` -/
def env_deinit (ndebug : Bool) (platform_deinit_rc : Int) (s : EnvState) :
    Option (Int × EnvState) :=
  if ndebug = false ∧ ¬ (0 < s.env_init_counter.val) then none
  else if s.env_init_counter.val ≤ 0 then some (-1, s)
  else
    let s1 := { s with env_init_counter := CInt.wrap (s.env_init_counter.val - 1) }
    if 0 < s1.env_init_counter.val then some (0, s1)
    else some (platform_deinit platform_deinit_rc s1)

/-- The function `env_lock_mutex`: the argument `lock` is not used. -/
def env_lock_mutex (_lock : Ptr) (s : EnvState) : EnvState :=
  platform_interrupt_disable_all s

/-- The function `env_unlock_mutex`: the argument `lock` is not used. -/
def env_unlock_mutex (_lock : Ptr) (s : EnvState) : EnvState :=
  platform_interrupt_enable_all s

/-- The function `env_register_isr`.
```
assert(vq_id < ISR_COUNT);
if (vq_id < ISR_COUNT) { isr_table[vq_id].data = data; }
```
The index `vq_id` is a signed `int` and only its upper bound is tested. -/
def env_register_isr (ndebug : Bool) (vq_id : Int) (data : Ptr) (s : EnvState) :
    Option EnvState :=
  if ndebug = false ∧ ¬ (vq_id < ISR_COUNT) then none
  else if vq_id < ISR_COUNT then
    some { s with isr_table := Function.update s.isr_table vq_id data }
  else some s

/-- The function `env_isr`.
```
assert(vector < ISR_COUNT);
if (vector < ISR_COUNT) {
    info = &isr_table[vector];
    virtqueue_notification((struct virtqueue *)info->data);
}
```
The index `vector` is a signed `int` and only its upper bound is tested. -/
def env_isr (ndebug : Bool) (vector : Int) (s : EnvState) : Option EnvState :=
  if ndebug = false ∧ ¬ (vector < ISR_COUNT) then none
  else if vector < ISR_COUNT then
    some (virtqueue_notification (s.isr_table vector) s)
  else some s

/-! ### Call sequences -/

/-- A call of the lifecycle interface, with the result code the platform would answer
if the call reaches it. -/
inductive LifecycleCall where
  | env_init (platform_init_rc : Int)
  | env_deinit (platform_deinit_rc : Int)
deriving DecidableEq, Repr

/-- Whether a lifecycle call is an `env_init`. -/
def LifecycleCall.isInit : LifecycleCall → Bool
  | .env_init _ => true
  | .env_deinit _ => false

/-- Whether a lifecycle call is an `env_deinit`. -/
def LifecycleCall.isDeinit : LifecycleCall → Bool
  | .env_init _ => false
  | .env_deinit _ => true

/-- One lifecycle call; the returned status is dropped. -/
def LifecycleCall.exec (ndebug : Bool) : LifecycleCall → EnvState → Option EnvState
  | .env_init rc, s => (EnvBm.env_init ndebug rc s).map Prod.snd
  | .env_deinit rc, s => (EnvBm.env_deinit ndebug rc s).map Prod.snd

/-- A sequence of lifecycle calls, executed left to right. -/
def runLifecycle (ndebug : Bool) : List LifecycleCall → EnvState → Option EnvState
  | [], s => some s
  | c :: cs, s => (c.exec ndebug s).bind (runLifecycle ndebug cs)

/-- The run did not abort and left `env_init_counter >= 1`. -/
def stillInitialised (r : Option EnvState) : Bool :=
  match r with
  | some s => decide (1 ≤ s.env_init_counter.val)
  | none => false

/-- No `env_deinit` of the sequence is entered with `env_init_counter == 0`. -/
def deinitNeverAtZero (ndebug : Bool) : List LifecycleCall → EnvState → Bool
  | [], _ => true
  | c :: cs, s =>
    (!(c.isDeinit && decide (s.env_init_counter.val = 0))) &&
      (match c.exec ndebug s with
       | some s1 => deinitNeverAtZero ndebug cs s1
       | none => true)

/-- A sequence of `env_init` calls; the status codes are collected in call order. -/
def env_init_seq (ndebug : Bool) : List Int → EnvState → Option (List Int × EnvState)
  | [], s => some ([], s)
  | rc :: rcs, s =>
    match env_init ndebug rc s with
    | none => none
    | some (r, s1) =>
      match env_init_seq ndebug rcs s1 with
      | none => none
      | some (rs, s2) => some (r :: rs, s2)

/-- A sequence of `env_register_isr(vq_id, data)` calls, executed left to right. -/
def registerAll (ndebug : Bool) : List (Int × Ptr) → EnvState → Option EnvState
  | [], s => some s
  | p :: ps, s => (env_register_isr ndebug p.1 p.2 s).bind (registerAll ndebug ps)

/-- The interrupt handler `env_isr(vector)` entered `n` times in a row. -/
def env_isr_times (ndebug : Bool) (vector : Int) : Nat → EnvState → Option EnvState
  | 0, s => some s
  | n + 1, s => (env_isr ndebug vector s).bind (env_isr_times ndebug vector n)

/-- A call of the mutex interface on a lock token. -/
inductive MutexCall where
  | env_lock_mutex (lock : Ptr)
  | env_unlock_mutex (lock : Ptr)
deriving DecidableEq, Repr

/-- Whether a mutex call is an `env_unlock_mutex`. -/
def MutexCall.isUnlock : MutexCall → Bool
  | .env_lock_mutex _ => false
  | .env_unlock_mutex _ => true

/-- One mutex call. -/
def MutexCall.exec : MutexCall → EnvState → EnvState
  | .env_lock_mutex l, s => EnvBm.env_lock_mutex l s
  | .env_unlock_mutex l, s => EnvBm.env_unlock_mutex l s

/-- A sequence of mutex calls, executed left to right. -/
def runMutex : List MutexCall → EnvState → EnvState
  | [], s => s
  | c :: cs, s => runMutex cs (c.exec s)

/-! ### States used as examples -/

/-- The state after one `env_init` on the zero-initialised state. -/
def onceInitialised : EnvState :=
  { env_init_counter := CInt.wrap 1
    isr_table := fun _ => NULL
    trace := [Event.platform_init]
    interrupts_enabled := true }

/-- A state in which the memory cell just below the table holds 77 and the table is
empty. -/
def cellBelowTable : EnvState :=
  { zeroState with isr_table := fun i => if i = -1 then 77 else NULL }

/-- A state before the first `env_init` in which cell 1 of the table holds 99. -/
def staleTable : EnvState :=
  { zeroState with isr_table := fun i => if i = 1 then 99 else NULL }

/-! ### Single calls -/

/-- Wrapping does nothing to a value that is already a C `int`. -/
theorem CInt.wrap_val (x : Int) (h1 : -2147483648 ≤ x) (h2 : x ≤ 2147483647) :
    (CInt.wrap x).val = x := by
  simp only [CInt.wrap]
  omega

/-- First call: `env_init` entered with the counter at `0`. -/
theorem env_init_first (ndebug : Bool) (rc : Int) (s : EnvState)
    (h : s.env_init_counter.val = 0) :
    env_init ndebug rc s = some (rc,
      { env_init_counter := CInt.wrap 1
        isr_table := memset_isr_table s.isr_table
        trace := s.trace ++ [Event.platform_init]
        interrupts_enabled := s.interrupts_enabled }) := by
  have hw : ¬ (1 < (CInt.wrap 1).val) := by decide
  simp [env_init, platform_init, h, hw]

/-- Repeated call: `env_init` entered with the counter at `1` or more, below `INT_MAX`. -/
theorem env_init_again (ndebug : Bool) (rc : Int) (s : EnvState)
    (h1 : 1 ≤ s.env_init_counter.val) (h2 : s.env_init_counter.val < 2147483647) :
    env_init ndebug rc s = some (0,
      { s with env_init_counter := CInt.wrap (s.env_init_counter.val + 1) }) := by
  have hw := CInt.wrap_val (s.env_init_counter.val + 1) (by omega) (by omega)
  have h3 : ¬ (s.env_init_counter.val < 0) := by omega
  have h4 : 0 ≤ s.env_init_counter.val := by omega
  have h5 : 1 < (CInt.wrap (s.env_init_counter.val + 1)).val := by omega
  simp [env_init, h3, h4, h5]

/-- Overflowing call: `env_init` entered with the counter at `INT_MAX`. -/
theorem env_init_at_max (ndebug : Bool) (rc : Int) (s : EnvState)
    (h : s.env_init_counter.val = 2147483647) :
    env_init ndebug rc s = some (rc,
      { env_init_counter := CInt.wrap 2147483648
        isr_table := memset_isr_table s.isr_table
        trace := s.trace ++ [Event.platform_init]
        interrupts_enabled := s.interrupts_enabled }) := by
  have h5 : ¬ (1 < (CInt.wrap 2147483648).val) := by decide
  simp [env_init, platform_init, h, h5]

/-- Last call: `env_deinit` entered with the counter at `1`. -/
theorem env_deinit_last (ndebug : Bool) (rc : Int) (s : EnvState)
    (h : s.env_init_counter.val = 1) :
    env_deinit ndebug rc s = some (rc,
      { env_init_counter := CInt.wrap 0
        isr_table := s.isr_table
        trace := s.trace ++ [Event.platform_deinit]
        interrupts_enabled := s.interrupts_enabled }) := by
  have hw : ¬ (0 < (CInt.wrap 0).val) := by decide
  simp [env_deinit, platform_deinit, h, hw]

/-- Inner call: `env_deinit` entered with the counter at `2` or more. -/
theorem env_deinit_inner (ndebug : Bool) (rc : Int) (s : EnvState)
    (h : 2 ≤ s.env_init_counter.val) :
    env_deinit ndebug rc s = some (0,
      { s with env_init_counter := CInt.wrap (s.env_init_counter.val - 1) }) := by
  have hhi := s.env_init_counter.hi
  have hw := CInt.wrap_val (s.env_init_counter.val - 1) (by omega) (by omega)
  have h3 : ¬ (s.env_init_counter.val ≤ 0) := by omega
  have h4 : 0 < s.env_init_counter.val := by omega
  have h5 : 0 < (CInt.wrap (s.env_init_counter.val - 1)).val := by omega
  simp [env_deinit, h3, h4, h5]

/-! ### Lifecycle sequences -/

/-- Running a concatenation is running the parts one after the other. -/
theorem runLifecycle_append (ndebug : Bool) (a b : List LifecycleCall) (s : EnvState) :
    runLifecycle ndebug (a ++ b) s =
      (runLifecycle ndebug a s).bind (runLifecycle ndebug b) := by
  induction a generalizing s with
  | nil => simp [runLifecycle]
  | cons c cs ih =>
    simp only [List.cons_append, runLifecycle]
    cases hc : c.exec ndebug s with
    | none => simp
    | some s1 => simp [ih]

/-- Every lifecycle call is an `env_init` or an `env_deinit`. -/
theorem length_eq_inits_add_deinits (calls : List LifecycleCall) :
    calls.length =
      calls.countP LifecycleCall.isInit + calls.countP LifecycleCall.isDeinit := by
  induction calls with
  | nil => simp
  | cons c cs ih =>
    cases c <;> simp [List.countP_cons, LifecycleCall.isInit, LifecycleCall.isDeinit, ih] <;>
      omega

/-- A call entered with the counter at `1` or more that leaves it at `1` or more changes
the counter by one and nothing else: it reaches neither the platform nor the table. -/
theorem exec_stays_initialised (ndebug : Bool) (c : LifecycleCall) (s : EnvState)
    (h1 : 1 ≤ s.env_init_counter.val)
    (h : stillInitialised (c.exec ndebug s) = true) :
    ∃ s1, c.exec ndebug s = some s1 ∧ s1.trace = s.trace ∧ s1.isr_table = s.isr_table ∧
      s1.interrupts_enabled = s.interrupts_enabled ∧ 1 ≤ s1.env_init_counter.val ∧
      s1.env_init_counter.val =
        s.env_init_counter.val + ((if c.isInit then 1 else 0 : Nat) : Int)
          - ((if c.isDeinit then 1 else 0 : Nat) : Int) := by
  have hhi := s.env_init_counter.hi
  cases c with
  | env_init rc =>
    by_cases hmax : s.env_init_counter.val = 2147483647
    · exfalso
      have hz : ¬ (1 ≤ (CInt.wrap 2147483648).val) := by decide
      simp [LifecycleCall.exec, env_init_at_max ndebug rc s hmax, stillInitialised, hz] at h
    · have hlt : s.env_init_counter.val < 2147483647 := by omega
      have hw := CInt.wrap_val (s.env_init_counter.val + 1) (by omega) (by omega)
      refine ⟨{ s with env_init_counter := CInt.wrap (s.env_init_counter.val + 1) },
        by simp [LifecycleCall.exec, env_init_again ndebug rc s h1 hlt], rfl, rfl, rfl, ?_, ?_⟩
      · show 1 ≤ (CInt.wrap (s.env_init_counter.val + 1)).val
        omega
      · show (CInt.wrap (s.env_init_counter.val + 1)).val = _
        simp [hw, LifecycleCall.isInit, LifecycleCall.isDeinit]
  | env_deinit rc =>
    by_cases hone : s.env_init_counter.val = 1
    · exfalso
      have hz : ¬ (1 ≤ (CInt.wrap 0).val) := by decide
      simp [LifecycleCall.exec, env_deinit_last ndebug rc s hone, stillInitialised, hz] at h
    · have hge : 2 ≤ s.env_init_counter.val := by omega
      have hw := CInt.wrap_val (s.env_init_counter.val - 1) (by omega) (by omega)
      refine ⟨{ s with env_init_counter := CInt.wrap (s.env_init_counter.val - 1) },
        by simp [LifecycleCall.exec, env_deinit_inner ndebug rc s hge], rfl, rfl, rfl, ?_, ?_⟩
      · show 1 ≤ (CInt.wrap (s.env_init_counter.val - 1)).val
        omega
      · show (CInt.wrap (s.env_init_counter.val - 1)).val = _
        simp [hw, LifecycleCall.isInit, LifecycleCall.isDeinit]

/-- A run that starts with the counter at `1` or more and leaves it at `1` or more after
every call reaches neither the platform nor the table. -/
theorem runLifecycle_stays_initialised (ndebug : Bool) (calls : List LifecycleCall) :
    ∀ s : EnvState, 1 ≤ s.env_init_counter.val →
      (∀ k, 0 < k → k ≤ calls.length →
        stillInitialised (runLifecycle ndebug (calls.take k) s) = true) →
      ∃ s1, runLifecycle ndebug calls s = some s1 ∧ s1.trace = s.trace ∧
        s1.isr_table = s.isr_table ∧ s1.interrupts_enabled = s.interrupts_enabled ∧
        1 ≤ s1.env_init_counter.val ∧
        s1.env_init_counter.val =
          s.env_init_counter.val + (calls.countP LifecycleCall.isInit : Int)
            - (calls.countP LifecycleCall.isDeinit : Int) := by
  induction calls with
  | nil =>
    intro s h1 _
    exact ⟨s, rfl, rfl, rfl, rfl, h1, by simp⟩
  | cons c cs ih =>
    intro s h1 hk
    have hfirst := hk 1 (by omega) (by simp)
    simp only [List.take_succ_cons, List.take_zero, runLifecycle] at hfirst
    have hfirst2 : stillInitialised (c.exec ndebug s) = true := by
      cases hc : c.exec ndebug s with
      | none => simp [hc, stillInitialised] at hfirst
      | some s1 => simpa [hc, runLifecycle] using hfirst
    obtain ⟨s1, hs1, ht, htab, hirq, hpos, hcnt⟩ :=
      exec_stays_initialised ndebug c s h1 hfirst2
    have hk2 : ∀ k, 0 < k → k ≤ cs.length →
        stillInitialised (runLifecycle ndebug (cs.take k) s1) = true := by
      intro k hk0 hkl
      have := hk (k + 1) (by omega) (by simp; omega)
      simpa [List.take_succ_cons, runLifecycle, hs1] using this
    obtain ⟨s2, hs2, ht2, htab2, hirq2, hpos2, hcnt2⟩ := ih s1 hpos hk2
    refine ⟨s2, by simp [runLifecycle, hs1, hs2], ht2.trans ht, htab2.trans htab,
      hirq2.trans hirq, hpos2, ?_⟩
    rw [hcnt2, hcnt, List.countP_cons, List.countP_cons]
    push_cast
    omega

/-- An `env_deinit` entered with the counter at `0` does not leave it at `1` or more,
in either build. -/
theorem env_deinit_at_zero_not_initialised (ndebug : Bool) (rc : Int) (s : EnvState)
    (h : s.env_init_counter.val = 0) :
    stillInitialised ((LifecycleCall.env_deinit rc).exec ndebug s) = false := by
  cases ndebug <;> simp [LifecycleCall.exec, env_deinit, stillInitialised, h]

/-- C1 (as amended): from a state with the counter at 0, for every N >= 1 and every
sequence of N `env_init` and N `env_deinit` calls in which the counter is at least 1
after every call but the last, the run completes in either build, the counter is back
at 0, and the calls that reached the platform are exactly one `platform_init` followed
by one `platform_deinit`, whatever result codes the platform returns. -/
theorem C1_single_cycle_calls_platform_once (ndebug : Bool) (N : Nat)
    (calls : List LifecycleCall) (s : EnvState)
    (hs : s.env_init_counter.val = 0)
    (hN : 1 ≤ N)
    (hinit : calls.countP LifecycleCall.isInit = N)
    (hdeinit : calls.countP LifecycleCall.isDeinit = N)
    (hstay : ∀ k, 0 < k → k < calls.length →
      stillInitialised (runLifecycle ndebug (calls.take k) s) = true) :
    ∃ s1, runLifecycle ndebug calls s = some s1 ∧
      s1.env_init_counter.val = 0 ∧
      s1.trace = s.trace ++ [Event.platform_init, Event.platform_deinit] ∧
      s1.trace.count Event.platform_init = s.trace.count Event.platform_init + 1 ∧
      s1.trace.count Event.platform_deinit = s.trace.count Event.platform_deinit + 1 := by
  have hlen := length_eq_inits_add_deinits calls
  rw [hinit, hdeinit] at hlen
  cases calls with
  | nil => simp at hlen; omega
  | cons c rest =>
    rcases List.eq_nil_or_concat rest with hnil | ⟨L, b, hL⟩
    · subst hnil
      simp at hlen
      omega
    · rw [List.concat_eq_append] at hL
      subst hL
      -- the first call is an `env_init` that takes the counter from 0 to 1
      have hfirst := hstay 1 (by omega) (by simp)
      simp only [List.take_succ_cons, List.take_zero, runLifecycle] at hfirst
      cases c with
      | env_deinit rc =>
        exfalso
        have hz := env_deinit_at_zero_not_initialised ndebug rc s hs
        cases hc : (LifecycleCall.env_deinit rc).exec ndebug s with
        | none => simp [hc, stillInitialised] at hfirst
        | some s0 =>
          rw [hc] at hz
          simp [hc, runLifecycle, hz] at hfirst
      | env_init rc =>
        have hone : (CInt.wrap 1).val = 1 := by decide
        have hexec : (LifecycleCall.env_init rc).exec ndebug s = some
            { env_init_counter := CInt.wrap 1
              isr_table := memset_isr_table s.isr_table
              trace := s.trace ++ [Event.platform_init]
              interrupts_enabled := s.interrupts_enabled } := by
          simp [LifecycleCall.exec, env_init_first ndebug rc s hs]
        -- the calls in between neither reach the platform nor bring the counter to 0
        have hmid : ∀ k, 0 < k → k ≤ L.length →
            stillInitialised (runLifecycle ndebug (L.take k)
              { env_init_counter := CInt.wrap 1
                isr_table := memset_isr_table s.isr_table
                trace := s.trace ++ [Event.platform_init]
                interrupts_enabled := s.interrupts_enabled }) = true := by
          intro k hk0 hkl
          have := hstay (k + 1) (by omega) (by simp; omega)
          simpa [List.take_succ_cons, runLifecycle, hexec,
            List.take_append_of_le_length hkl] using this
        obtain ⟨s2, hs2, ht2, _, _, hpos2, hcnt2⟩ :=
          runLifecycle_stays_initialised ndebug L _ (by simp [hone]) hmid
        simp only [hone] at hcnt2
        -- the last call is the `env_deinit` that takes the counter from 1 to 0
        cases b with
        | env_init rc2 =>
          exfalso
          simp [List.countP_cons, List.countP_append, LifecycleCall.isInit,
            LifecycleCall.isDeinit] at hinit hdeinit
          omega
        | env_deinit rc2 =>
          simp [List.countP_cons, List.countP_append, LifecycleCall.isInit,
            LifecycleCall.isDeinit] at hinit hdeinit
          have hc1 : s2.env_init_counter.val = 1 := by omega
          have hzero : (CInt.wrap 0).val = 0 := by decide
          refine ⟨{ env_init_counter := CInt.wrap 0
                    isr_table := s2.isr_table
                    trace := s2.trace ++ [Event.platform_deinit]
                    interrupts_enabled := s2.interrupts_enabled }, ?_, hzero, ?_, ?_, ?_⟩
          · simp only [runLifecycle, hexec, Option.some_bind, runLifecycle_append, hs2]
            simp [LifecycleCall.exec, env_deinit_last ndebug rc2 s2 hc1]
          · simp [ht2]
          · simp [ht2, List.count_append]
          · simp [ht2, List.count_append]

/-- Witness for C1 (as amended): three owners, nested and overlapping, platform codes 5 and 7. -/
theorem C1_single_cycle_calls_platform_once_witness :
    ∃ s1, runLifecycle false
        [.env_init 5, .env_init 0, .env_deinit 0, .env_init 0, .env_deinit 0, .env_deinit 7]
        zeroState = some s1 ∧
      s1.env_init_counter.val = 0 ∧
      s1.trace = zeroState.trace ++ [Event.platform_init, Event.platform_deinit] ∧
      s1.trace.count Event.platform_init = zeroState.trace.count Event.platform_init + 1 ∧
      s1.trace.count Event.platform_deinit =
        zeroState.trace.count Event.platform_deinit + 1 :=
  C1_single_cycle_calls_platform_once false 3
    [.env_init 5, .env_init 0, .env_deinit 0, .env_init 0, .env_deinit 0, .env_deinit 7]
    zeroState (by decide) (by decide) (by decide) (by decide)
    (by
      intro k h0 hk
      simp only [List.length_cons, List.length_nil] at hk
      interval_cases k <;> decide)

/-- C1 (as stated) fails: two `env_init` and two `env_deinit` calls, no `env_deinit`
entered with the counter at 0, and `platform_init` and `platform_deinit` are each called
twice, in the release build and in the debug build. -/
theorem C1_counterexample_two_cycles :
    ([LifecycleCall.env_init 0, .env_deinit 0, .env_init 0, .env_deinit 0].countP
        LifecycleCall.isInit = 2) ∧
    ([LifecycleCall.env_init 0, .env_deinit 0, .env_init 0, .env_deinit 0].countP
        LifecycleCall.isDeinit = 2) ∧
    deinitNeverAtZero true [.env_init 0, .env_deinit 0, .env_init 0, .env_deinit 0]
        zeroState = true ∧
    deinitNeverAtZero false [.env_init 0, .env_deinit 0, .env_init 0, .env_deinit 0]
        zeroState = true ∧
    (runLifecycle true [.env_init 0, .env_deinit 0, .env_init 0, .env_deinit 0]
        zeroState).map (fun s => s.trace) =
      some [Event.platform_init, Event.platform_deinit, Event.platform_init,
        Event.platform_deinit] ∧
    (runLifecycle false [.env_init 0, .env_deinit 0, .env_init 0, .env_deinit 0]
        zeroState).map (fun s => s.trace) =
      some [Event.platform_init, Event.platform_deinit, Event.platform_init,
        Event.platform_deinit] ∧
    ¬ (∃ s1, runLifecycle true [.env_init 0, .env_deinit 0, .env_init 0, .env_deinit 0]
        zeroState = some s1 ∧ s1.trace.count Event.platform_init = 1 ∧
        s1.trace.count Event.platform_deinit = 1) := by
  refine ⟨by decide, by decide, by decide, by decide, by decide, by decide, ?_⟩
  rintro ⟨s1, hrun, h1, _⟩
  have ht : (runLifecycle true [.env_init 0, .env_deinit 0, .env_init 0, .env_deinit 0]
      zeroState).map (fun s => s.trace.count Event.platform_init) = some 2 := by decide
  rw [hrun] at ht
  simp at ht
  omega

/-! ### Lifecycle contracts -/

/-- In a debug build an `env_deinit` entered with the counter at 0 or below aborts on its
`assert`. -/
theorem env_deinit_rejected_debug (rc : Int) (s : EnvState) (h : s.env_init_counter.val ≤ 0) :
    env_deinit false rc s = none := by
  have h2 : ¬ (0 < s.env_init_counter.val) := by omega
  simp [env_deinit, h2]

/-- C2: in a release build (`assert` compiled out) `env_deinit` entered with the counter at 0
or below returns -1 and hands back the very same state: counter, table and trace (no
`platform_deinit`) are untouched. -/
theorem C2_env_deinit_rejected_release (rc : Int) (s : EnvState)
    (h : s.env_init_counter.val ≤ 0) :
    env_deinit true rc s = some (-1, s) := by
  simp [env_deinit, h]

/-- Witness for C2: the zero-initialised state, platform code 9. -/
theorem C2_env_deinit_rejected_release_witness :
    env_deinit true 9 zeroState = some (-1, zeroState) :=
  C2_env_deinit_rejected_release 9 zeroState (by decide)

/-- C6: `env_init` entered with the counter `c`, `0 <= c < INT_MAX`, completes in either
build and leaves the counter at `c + 1`.  If `c = 0` it returns the result code of
`platform_init`, calls `platform_init` once and nothing else, sets every cell of the table
to `NULL` and leaves the cells outside the table alone.  If `c >= 1` it returns 0, calls
nothing and leaves every cell unchanged. -/
theorem C6_env_init_contract (ndebug : Bool) (rc : Int) (s : EnvState)
    (h0 : 0 ≤ s.env_init_counter.val) (hmax : s.env_init_counter.val < INT_MAX) :
    ∃ r s1, env_init ndebug rc s = some (r, s1) ∧
      s1.env_init_counter.val = s.env_init_counter.val + 1 ∧
      s1.interrupts_enabled = s.interrupts_enabled ∧
      (s.env_init_counter.val = 0 →
        r = rc ∧ s1.trace = s.trace ++ [Event.platform_init] ∧
        (∀ i, 0 ≤ i → i < ISR_COUNT → s1.isr_table i = NULL) ∧
        (∀ i, ¬ (0 ≤ i ∧ i < ISR_COUNT) → s1.isr_table i = s.isr_table i)) ∧
      (1 ≤ s.env_init_counter.val →
        r = 0 ∧ s1.trace = s.trace ∧ s1.isr_table = s.isr_table) := by
  simp only [INT_MAX] at hmax
  by_cases hc : s.env_init_counter.val = 0
  · have hone : (CInt.wrap 1).val = 1 := by decide
    refine ⟨rc, _, env_init_first ndebug rc s hc, by simp [hone, hc], rfl, ?_, ?_⟩
    · intro _
      refine ⟨rfl, rfl, ?_, ?_⟩
      · intro i hi0 hi1
        simp [memset_isr_table, hi0, hi1]
      · intro i hi
        simp [memset_isr_table, hi]
    · intro h1
      omega
  · have h1 : 1 ≤ s.env_init_counter.val := by omega
    have hw := CInt.wrap_val (s.env_init_counter.val + 1) (by omega) (by omega)
    refine ⟨0, _, env_init_again ndebug rc s h1 hmax, hw, rfl, ?_, ?_⟩
    · intro h
      exact absurd h hc
    · intro _
      exact ⟨rfl, rfl, rfl⟩

/-- Witness for C6: the first call on the zero-initialised state, platform code 4. -/
theorem C6_env_init_contract_witness :
    ∃ r s1, env_init false 4 zeroState = some (r, s1) ∧
      s1.env_init_counter.val = zeroState.env_init_counter.val + 1 ∧
      s1.interrupts_enabled = zeroState.interrupts_enabled ∧
      (zeroState.env_init_counter.val = 0 →
        r = 4 ∧ s1.trace = zeroState.trace ++ [Event.platform_init] ∧
        (∀ i, 0 ≤ i → i < ISR_COUNT → s1.isr_table i = NULL) ∧
        (∀ i, ¬ (0 ≤ i ∧ i < ISR_COUNT) → s1.isr_table i = zeroState.isr_table i)) ∧
      (1 ≤ zeroState.env_init_counter.val →
        r = 0 ∧ s1.trace = zeroState.trace ∧ s1.isr_table = zeroState.isr_table) :=
  C6_env_init_contract false 4 zeroState (by decide) (by decide)

/-- C7: `env_deinit` entered with the counter `c >= 1` completes in either build, leaves the
counter at `c - 1` and every cell unchanged.  If `c = 1` it returns the result code of
`platform_deinit` and calls `platform_deinit` once and nothing else.  If `c >= 2` it
returns 0 and calls nothing. -/
theorem C7_env_deinit_contract (ndebug : Bool) (rc : Int) (s : EnvState)
    (h1 : 1 ≤ s.env_init_counter.val) :
    ∃ r s1, env_deinit ndebug rc s = some (r, s1) ∧
      s1.env_init_counter.val = s.env_init_counter.val - 1 ∧
      s1.isr_table = s.isr_table ∧
      s1.interrupts_enabled = s.interrupts_enabled ∧
      (s.env_init_counter.val = 1 →
        r = rc ∧ s1.trace = s.trace ++ [Event.platform_deinit]) ∧
      (2 ≤ s.env_init_counter.val → r = 0 ∧ s1.trace = s.trace) := by
  have hhi := s.env_init_counter.hi
  by_cases hc : s.env_init_counter.val = 1
  · have hzero : (CInt.wrap 0).val = 0 := by decide
    refine ⟨rc, _, env_deinit_last ndebug rc s hc, by simp [hzero, hc], rfl, rfl, ?_, ?_⟩
    · intro _
      exact ⟨rfl, rfl⟩
    · intro h2
      omega
  · have h2 : 2 ≤ s.env_init_counter.val := by omega
    have hw := CInt.wrap_val (s.env_init_counter.val - 1) (by omega) (by omega)
    refine ⟨0, _, env_deinit_inner ndebug rc s h2, hw, rfl, rfl, ?_, ?_⟩
    · intro h
      exact absurd h hc
    · intro _
      exact ⟨rfl, rfl⟩

/-- Witness for C7: the last owner leaves, platform code 3. -/
theorem C7_env_deinit_contract_witness :
    ∃ r s1, env_deinit false 3 onceInitialised = some (r, s1) ∧
      s1.env_init_counter.val = onceInitialised.env_init_counter.val - 1 ∧
      s1.isr_table = onceInitialised.isr_table ∧
      s1.interrupts_enabled = onceInitialised.interrupts_enabled ∧
      (onceInitialised.env_init_counter.val = 1 →
        r = 3 ∧ s1.trace = onceInitialised.trace ++ [Event.platform_deinit]) ∧
      (2 ≤ onceInitialised.env_init_counter.val →
        r = 0 ∧ s1.trace = onceInitialised.trace) :=
  C7_env_deinit_contract false 3 onceInitialised (by decide)

/-- Further `env_init` calls on an initialised environment all return 0 and reach
neither the platform nor the table, as long as the counter stays within `int`. -/
theorem env_init_seq_again (ndebug : Bool) (rcs : List Int) :
    ∀ s : EnvState, 1 ≤ s.env_init_counter.val →
      s.env_init_counter.val + rcs.length ≤ 2147483647 →
      ∃ s1, env_init_seq ndebug rcs s = some (List.replicate rcs.length 0, s1) ∧
        s1.trace = s.trace ∧ s1.isr_table = s.isr_table ∧
        s1.env_init_counter.val = s.env_init_counter.val + rcs.length := by
  induction rcs with
  | nil =>
    intro s _ _
    exact ⟨s, rfl, rfl, rfl, by simp⟩
  | cons rc rcs ih =>
    intro s h1 hmax
    simp only [List.length_cons, Nat.cast_add, Nat.cast_one] at hmax
    have hlt : s.env_init_counter.val < 2147483647 := by omega
    have hw := CInt.wrap_val (s.env_init_counter.val + 1) (by omega) (by omega)
    obtain ⟨s2, hs2, ht2, htab2, hc2⟩ :=
      ih { s with env_init_counter := CInt.wrap (s.env_init_counter.val + 1) }
        (by show 1 ≤ (CInt.wrap (s.env_init_counter.val + 1)).val; omega)
        (by show (CInt.wrap (s.env_init_counter.val + 1)).val + _ ≤ _; omega)
    refine ⟨s2, ?_, ht2, htab2, ?_⟩
    · simp [env_init_seq, env_init_again ndebug rc s h1 hlt, hs2, List.replicate_succ]
    · rw [hc2]
      show (CInt.wrap (s.env_init_counter.val + 1)).val + _ = _
      simp only [List.length_cons, Nat.cast_add, Nat.cast_one]
      omega

/-- C10: `env_init` entered with the counter at 0 while `platform_init` answers a failure
code `rc` returns `rc`, yet leaves the counter at 1 and the table zeroed.  Every later
`env_init` (as long as the counter stays within `int`) returns 0 and does not call
`platform_init` again.  Only after an `env_deinit` has taken the counter back to 0 does
the next `env_init` call `platform_init` again. -/
theorem C10_failed_init_is_not_retried (ndebug : Bool) (rc : Int) (s : EnvState)
    (hs : s.env_init_counter.val = 0) (_hfail : rc ≠ 0) :
    ∃ s1, env_init ndebug rc s = some (rc, s1) ∧
      s1.env_init_counter.val = 1 ∧
      (∀ i, 0 ≤ i → i < ISR_COUNT → s1.isr_table i = NULL) ∧
      s1.trace = s.trace ++ [Event.platform_init] ∧
      (∀ rc2, ∃ s2, env_init ndebug rc2 s1 = some (0, s2) ∧ s2.trace = s1.trace ∧
        s2.env_init_counter.val = 2) ∧
      (∀ rcs : List Int, rcs.length < 2147483647 →
        ∃ s2, env_init_seq ndebug rcs s1 = some (List.replicate rcs.length 0, s2) ∧
          s2.trace = s1.trace ∧ s2.env_init_counter.val = 1 + rcs.length) ∧
      (∀ rc3 rc4, ∃ s3 s4, env_deinit ndebug rc3 s1 = some (rc3, s3) ∧
        s3.env_init_counter.val = 0 ∧
        env_init ndebug rc4 s3 = some (rc4, s4) ∧
        s4.trace = s.trace ++
          [Event.platform_init, Event.platform_deinit, Event.platform_init]) := by
  have hone : (CInt.wrap 1).val = 1 := by decide
  have hzero : (CInt.wrap 0).val = 0 := by decide
  have htwo : (CInt.wrap (1 + 1)).val = 2 := by decide
  refine ⟨_, env_init_first ndebug rc s hs, hone, ?_, rfl, ?_, ?_, ?_⟩
  · intro i hi0 hi1
    simp [memset_isr_table, hi0, hi1]
  · intro rc2
    refine ⟨_, env_init_again ndebug rc2 _ (by simp [hone]) (by simp [hone]), rfl, ?_⟩
    simp only [hone]
    exact htwo
  · intro rcs hlen
    obtain ⟨s2, hs2, ht2, _, hc2⟩ := env_init_seq_again ndebug rcs
      { env_init_counter := CInt.wrap 1
        isr_table := memset_isr_table s.isr_table
        trace := s.trace ++ [Event.platform_init]
        interrupts_enabled := s.interrupts_enabled }
      (by simp [hone]) (by simp only [hone]; omega)
    exact ⟨s2, hs2, ht2, by simpa [hone] using hc2⟩
  · intro rc3 rc4
    refine ⟨_, _, env_deinit_last ndebug rc3 _ hone, hzero,
      env_init_first ndebug rc4 _ hzero, ?_⟩
    simp

/-- Witness for C10: the zero-initialised state, `platform_init` answers -5. -/
theorem C10_failed_init_is_not_retried_witness :
    ∃ s1, env_init true (-5) zeroState = some (-5, s1) ∧
      s1.env_init_counter.val = 1 ∧
      (∀ i, 0 ≤ i → i < ISR_COUNT → s1.isr_table i = NULL) ∧
      s1.trace = zeroState.trace ++ [Event.platform_init] ∧
      (∀ rc2, ∃ s2, env_init true rc2 s1 = some (0, s2) ∧ s2.trace = s1.trace ∧
        s2.env_init_counter.val = 2) ∧
      (∀ rcs : List Int, rcs.length < 2147483647 →
        ∃ s2, env_init_seq true rcs s1 = some (List.replicate rcs.length 0, s2) ∧
          s2.trace = s1.trace ∧ s2.env_init_counter.val = 1 + rcs.length) ∧
      (∀ rc3 rc4, ∃ s3 s4, env_deinit true rc3 s1 = some (rc3, s3) ∧
        s3.env_init_counter.val = 0 ∧
        env_init true rc4 s3 = some (rc4, s4) ∧
        s4.trace = zeroState.trace ++
          [Event.platform_init, Event.platform_deinit, Event.platform_init]) :=
  C10_failed_init_is_not_retried true (-5) zeroState (by decide) (by decide)

/-! ### The ISR table -/

/-- A vector below `ISR_COUNT` passes the test of `env_register_isr`, in either build:
the store is performed at cell `vq_id`. -/
theorem env_register_isr_below (ndebug : Bool) (vq_id : Int) (data : Ptr) (s : EnvState)
    (h : vq_id < ISR_COUNT) :
    env_register_isr ndebug vq_id data s =
      some { s with isr_table := Function.update s.isr_table vq_id data } := by
  simp [env_register_isr, h]

/-- A vector at or above `ISR_COUNT` is rejected by `env_register_isr`: the release build
hands back the same state, the debug build aborts on the `assert`. -/
theorem env_register_isr_rejects_high (vq_id : Int) (data : Ptr) (s : EnvState)
    (h : ISR_COUNT ≤ vq_id) :
    env_register_isr true vq_id data s = some s ∧
      env_register_isr false vq_id data s = none := by
  have h2 : ¬ (vq_id < ISR_COUNT) := by omega
  simp [env_register_isr, h2]

/-- A negative vector is not rejected by `env_register_isr`: in either build the store is
performed at cell `vq_id`, which lies outside the table. -/
theorem env_register_isr_negative (ndebug : Bool) (vq_id : Int) (data : Ptr) (s : EnvState)
    (h : vq_id < 0) :
    ∃ s1, env_register_isr ndebug vq_id data s = some s1 ∧ s1.isr_table vq_id = data ∧
      ¬ (0 ≤ vq_id ∧ vq_id < ISR_COUNT) := by
  have h2 : vq_id < ISR_COUNT := by simp only [ISR_COUNT]; omega
  refine ⟨_, env_register_isr_below ndebug vq_id data s h2, by simp, ?_⟩
  omega

/-- A vector below `ISR_COUNT` passes the test of `env_isr`, in either build: the cell
`vector` is read and passed to `virtqueue_notification`. -/
theorem env_isr_below (ndebug : Bool) (vector : Int) (s : EnvState)
    (h : vector < ISR_COUNT) :
    env_isr ndebug vector s =
      some { s with trace := s.trace ++ [Event.virtqueue_notification (s.isr_table vector)] } := by
  simp [env_isr, virtqueue_notification, h]

/-- A vector at or above `ISR_COUNT` is rejected by `env_isr`: the release build hands back
the same state (nothing is forwarded), the debug build aborts on the `assert`. -/
theorem env_isr_rejects_high (vector : Int) (s : EnvState) (h : ISR_COUNT ≤ vector) :
    env_isr true vector s = some s ∧ env_isr false vector s = none := by
  have h2 : ¬ (vector < ISR_COUNT) := by omega
  simp [env_isr, h2]

/-- A negative vector is not rejected by `env_isr`: in either build the cell `vector`,
which lies outside the table, is read and passed to `virtqueue_notification`. -/
theorem env_isr_negative (ndebug : Bool) (vector : Int) (s : EnvState) (h : vector < 0) :
    env_isr ndebug vector s =
        some { s with
          trace := s.trace ++ [Event.virtqueue_notification (s.isr_table vector)] } ∧
      ¬ (0 ≤ vector ∧ vector < ISR_COUNT) := by
  have h2 : vector < ISR_COUNT := by simp only [ISR_COUNT]; omega
  exact ⟨env_isr_below ndebug vector s h2, by omega⟩

/-- Registrations on other vectors leave the cell `v`, the counter, the trace and the
interrupt mask alone; they complete in the release build, and in the debug build when
every vector is below `ISR_COUNT`. -/
theorem registerAll_other (ndebug : Bool) (v : Int) (regs : List (Int × Ptr)) :
    ∀ s : EnvState, (∀ p ∈ regs, p.1 ≠ v) →
      (ndebug = true ∨ ∀ p ∈ regs, p.1 < ISR_COUNT) →
      ∃ s1, registerAll ndebug regs s = some s1 ∧ s1.isr_table v = s.isr_table v ∧
        s1.trace = s.trace ∧ s1.env_init_counter = s.env_init_counter ∧
        s1.interrupts_enabled = s.interrupts_enabled := by
  induction regs with
  | nil =>
    intro s _ _
    exact ⟨s, rfl, rfl, rfl, rfl, rfl⟩
  | cons p ps ih =>
    intro s hother hbuild
    have hp : p.1 ≠ v := hother p (by simp)
    have hother2 : ∀ q ∈ ps, q.1 ≠ v := fun q hq => hother q (by simp [hq])
    have hbuild2 : ndebug = true ∨ ∀ q ∈ ps, q.1 < ISR_COUNT := by
      rcases hbuild with h | h
      · exact Or.inl h
      · exact Or.inr (fun q hq => h q (by simp [hq]))
    by_cases hlt : p.1 < ISR_COUNT
    · obtain ⟨s1, hs1, htab, ht, hc, hirq⟩ :=
        ih { s with isr_table := Function.update s.isr_table p.1 p.2 } hother2 hbuild2
      refine ⟨s1, ?_, ?_, ht, hc, hirq⟩
      · simp [registerAll, env_register_isr_below ndebug p.1 p.2 s hlt, hs1]
      · rw [htab]
        exact Function.update_noteq (Ne.symm hp) _ _
    · have hnd : ndebug = true := by
        rcases hbuild with h | h
        · exact h
        · exact absurd (h p (by simp)) hlt
      subst hnd
      obtain ⟨s1, hs1, htab, ht, hc, hirq⟩ := ih s hother2 hbuild2
      refine ⟨s1, ?_, htab, ht, hc, hirq⟩
      have hge : ISR_COUNT ≤ p.1 := by omega
      simp [registerAll, (env_register_isr_rejects_high p.1 p.2 s hge).1, hs1]

/-- Entering `env_isr(vector)` `n` times forwards the content of the cell `n` times and
changes nothing but the trace. -/
theorem env_isr_times_below (ndebug : Bool) (vector : Int) (n : Nat) :
    ∀ s : EnvState, vector < ISR_COUNT →
      env_isr_times ndebug vector n s =
        some { s with
          trace := s.trace ++
            List.replicate n (Event.virtqueue_notification (s.isr_table vector)) } := by
  induction n with
  | zero =>
    intro s _
    simp [env_isr_times]
  | succ n ih =>
    intro s h
    simp [env_isr_times, env_isr_below ndebug vector s h, ih _ h, List.replicate_succ]

/-- C3 (the code at the failing input): `env_register_isr(-1, 1)` on the zero-initialised
state is not rejected, in either build: the call completes and the cell at index -1,
which lies outside the table and held 0, now holds 1. -/
theorem C3_register_negative_vector_writes_outside_table :
    zeroState.isr_table (-1) = 0 ∧
    (env_register_isr true (-1) 1 zeroState).map (fun s => s.isr_table (-1)) = some 1 ∧
    (env_register_isr false (-1) 1 zeroState).map (fun s => s.isr_table (-1)) = some 1 ∧
    ¬ (0 ≤ (-1 : Int) ∧ (-1 : Int) < ISR_COUNT) := by
  refine ⟨by decide, by decide, by decide, by decide⟩

/-- C4 (the code at the failing input): `env_isr(-1)` is not rejected, in either build:
with 77 in the cell at index -1, which lies outside the table, and an empty table, the
call reads that cell and calls `virtqueue_notification` with 77. -/
theorem C4_isr_negative_vector_forwards_outside_cell :
    (env_isr true (-1) cellBelowTable).map (fun s => s.trace) =
      some [Event.virtqueue_notification 77] ∧
    (env_isr false (-1) cellBelowTable).map (fun s => s.trace) =
      some [Event.virtqueue_notification 77] ∧
    cellBelowTable.isr_table 0 = NULL ∧ cellBelowTable.isr_table 1 = NULL ∧
    ¬ (0 ≤ (-1 : Int) ∧ (-1 : Int) < ISR_COUNT) := by
  refine ⟨by decide, by decide, by decide, by decide, by decide⟩

/-- C5: for a vector `v` in `[0, ISR_COUNT)` and a target `T`, after
`env_register_isr(v, T)` and any registrations on other vectors, `n` entries of
`env_isr(v)` call `virtqueue_notification` `n` times, each time with `T`, and change
nothing else (table, counter and mask are those before the entries).  After a later
`env_register_isr(v, T2)` the entries of `env_isr(v)` forward `T2`, and `T` is not
forwarded unless `T2` is `T`.  The registrations on other vectors complete in a release
build; in a debug build they must be below `ISR_COUNT` not to abort. -/
theorem C5_isr_forwards_registered_target (ndebug : Bool) (v : Int) (T : Ptr)
    (regs : List (Int × Ptr)) (n : Nat) (s : EnvState)
    (_hv0 : 0 ≤ v) (hv1 : v < ISR_COUNT)
    (hother : ∀ p ∈ regs, p.1 ≠ v)
    (hbuild : ndebug = true ∨ ∀ p ∈ regs, p.1 < ISR_COUNT) :
    ∃ s1 s2, env_register_isr ndebug v T s = some s1 ∧
      registerAll ndebug regs s1 = some s2 ∧
      s2.isr_table v = T ∧
      env_isr_times ndebug v n s2 =
        some { s2 with
          trace := s2.trace ++ List.replicate n (Event.virtqueue_notification T) } ∧
      ∀ T2 m, ∃ s3, env_register_isr ndebug v T2 s2 = some s3 ∧
        s3.isr_table v = T2 ∧
        env_isr_times ndebug v m s3 =
          some { s3 with
            trace := s3.trace ++ List.replicate m (Event.virtqueue_notification T2) } ∧
        (T2 ≠ T →
          Event.virtqueue_notification T ∉
            List.replicate m (Event.virtqueue_notification T2)) := by
  obtain ⟨s2, hs2, htab, _, _, _⟩ := registerAll_other ndebug v regs
    { s with isr_table := Function.update s.isr_table v T } hother hbuild
  have hT : s2.isr_table v = T := by simpa using htab
  refine ⟨_, s2, env_register_isr_below ndebug v T s hv1, hs2, hT, ?_, ?_⟩
  · rw [env_isr_times_below ndebug v n s2 hv1, hT]
  · intro T2 m
    refine ⟨_, env_register_isr_below ndebug v T2 s2 hv1, by simp, ?_, ?_⟩
    · rw [env_isr_times_below ndebug v m _ hv1]
      simp
    · intro hne hmem
      have := List.eq_of_mem_replicate hmem
      simp only [Event.virtqueue_notification.injEq] at this
      exact hne this.symm

/-- Witness for C5: vector 1, target 40, other registrations on vectors 0, -3 and 5 in a
release build, three interrupts. -/
theorem C5_isr_forwards_registered_target_witness :
    ∃ s1 s2, env_register_isr true 1 40 zeroState = some s1 ∧
      registerAll true [(0, 10), (-3, 11), (5, 12)] s1 = some s2 ∧
      s2.isr_table 1 = 40 ∧
      env_isr_times true 1 3 s2 =
        some { s2 with
          trace := s2.trace ++ List.replicate 3 (Event.virtqueue_notification 40) } ∧
      ∀ T2 m, ∃ s3, env_register_isr true 1 T2 s2 = some s3 ∧
        s3.isr_table 1 = T2 ∧
        env_isr_times true 1 m s3 =
          some { s3 with
            trace := s3.trace ++ List.replicate m (Event.virtqueue_notification T2) } ∧
        (T2 ≠ 40 →
          Event.virtqueue_notification 40 ∉
            List.replicate m (Event.virtqueue_notification T2)) :=
  C5_isr_forwards_registered_target true 1 40 [(0, 10), (-3, 11), (5, 12)] 3 zeroState
    (by decide) (by decide) (by decide) (Or.inl rfl)

/-- C8: after an `env_init` that takes the counter from 0 to 1 and any registrations on
vectors other than `v`, for `v` in `[0, ISR_COUNT)`, the cell `v` holds `NULL` and
`env_isr(v)` makes one call, `virtqueue_notification(NULL)`: no registered target is
notified, and table, counter and mask are unchanged. -/
theorem C8_isr_unregistered_forwards_null (ndebug : Bool) (rc : Int) (v : Int)
    (regs : List (Int × Ptr)) (s : EnvState)
    (hs : s.env_init_counter.val = 0)
    (hv0 : 0 ≤ v) (hv1 : v < ISR_COUNT)
    (hother : ∀ p ∈ regs, p.1 ≠ v)
    (hbuild : ndebug = true ∨ ∀ p ∈ regs, p.1 < ISR_COUNT) :
    ∃ s1 s2, env_init ndebug rc s = some (rc, s1) ∧
      s1.env_init_counter.val = 1 ∧
      registerAll ndebug regs s1 = some s2 ∧
      s2.isr_table v = NULL ∧
      env_isr ndebug v s2 =
        some { s2 with trace := s2.trace ++ [Event.virtqueue_notification NULL] } := by
  have hone : (CInt.wrap 1).val = 1 := by decide
  obtain ⟨s2, hs2, htab, _, _, _⟩ := registerAll_other ndebug v regs
    { env_init_counter := CInt.wrap 1
      isr_table := memset_isr_table s.isr_table
      trace := s.trace ++ [Event.platform_init]
      interrupts_enabled := s.interrupts_enabled } hother hbuild
  have hnull : s2.isr_table v = NULL := by
    rw [htab]
    simp [memset_isr_table, hv0, hv1]
  refine ⟨_, s2, env_init_first ndebug rc s hs, hone, hs2, hnull, ?_⟩
  rw [env_isr_below ndebug v s2 hv1, hnull]

/-- Witness for C8: a stale table (cell 1 holds 99) is cleared by the first `env_init`;
vector 0 is registered afterwards, vector 1 is not, debug build. -/
theorem C8_isr_unregistered_forwards_null_witness :
    ∃ s1 s2, env_init false 0 staleTable = some (0, s1) ∧
      s1.env_init_counter.val = 1 ∧
      registerAll false [(0, 10)] s1 = some s2 ∧
      s2.isr_table 1 = NULL ∧
      env_isr false 1 s2 =
        some { s2 with trace := s2.trace ++ [Event.virtqueue_notification NULL] } :=
  C8_isr_unregistered_forwards_null false 0 1 [(0, 10)] staleTable
    (by decide) (by decide) (by decide) (by decide) (Or.inr (by decide))

/-! ### The mutex -/

/-- The interrupt mask after a non-empty sequence of mutex calls is decided by the last
call. -/
theorem runMutex_snoc (calls : List MutexCall) (last : MutexCall) :
    ∀ s : EnvState,
      (runMutex (calls ++ [last]) s).interrupts_enabled = last.isUnlock := by
  induction calls with
  | nil =>
    intro s
    cases last <;> rfl
  | cons c cs ih =>
    intro s
    simpa [runMutex] using ih (c.exec s)

/-- C9: the lock token is ignored (locking, or unlocking, with two tokens gives the same
state); after `env_lock_mutex(A); env_lock_mutex(B); env_unlock_mutex(B)` interrupts are
enabled from any starting state; after any non-empty sequence of lock and unlock calls
the mask is enabled exactly when the last call is an unlock. -/
theorem C9_mutex_is_a_noncounting_global_mask (A B : Ptr) (s : EnvState) :
    env_lock_mutex A s = env_lock_mutex B s ∧
    env_unlock_mutex A s = env_unlock_mutex B s ∧
    (env_unlock_mutex B (env_lock_mutex B (env_lock_mutex A s))).interrupts_enabled = true ∧
    (env_unlock_mutex B (env_lock_mutex B (env_lock_mutex A s))).trace =
      s.trace ++ [Event.platform_interrupt_disable_all,
        Event.platform_interrupt_disable_all, Event.platform_interrupt_enable_all] ∧
    ∀ (calls : List MutexCall) (last : MutexCall),
      (runMutex (calls ++ [last]) s).interrupts_enabled = last.isUnlock := by
  refine ⟨rfl, rfl, rfl, ?_, fun calls last => runMutex_snoc calls last s⟩
  simp [env_unlock_mutex, env_lock_mutex, platform_interrupt_enable_all,
    platform_interrupt_disable_all]

end EnvBm
